import Mathlib

/-!
Shallow embedding of the py7z repository: the option-model validators and
the command builders of `py7z.py`, `py7z_hash.py` and `py7z_ls.py`.

Python exceptions are modelled by the `Except PyError` monad.  String case
operations (`str.lower`, `re.IGNORECASE`) are modelled on ASCII characters,
which covers every character class the source's regexes use
(`[0-9]`, `[bkmgt]`) and every literal the claims mention.
-/

/-- The kinds of runtime failure the embedded code can raise:
`valueError` for Python's `ValueError` (with its message), `indexError`
for `IndexError` (string subscript out of range), `assertionError` for a
failed `assert` (with its message), `keyError` for a dict lookup miss, and
`usageExit` for `py7z_hash.py`'s `print(...); exit(1)` usage failure. -/
inductive PyError where
  | valueError (msg : String)
  | indexError
  | assertionError (msg : String)
  | keyError (key : String)
  | usageExit (msg : String)
  deriving Repr, DecidableEq

instance {ε α : Type} [DecidableEq ε] [DecidableEq α] : DecidableEq (Except ε α) := fun x y =>
  match x, y with
  | .ok a, .ok b =>
    if h : a = b then .isTrue (by rw [h]) else .isFalse (by simp [h])
  | .error a, .error b =>
    if h : a = b then .isTrue (by rw [h]) else .isFalse (by simp [h])
  | .ok _, .error _ => .isFalse (by simp)
  | .error _, .ok _ => .isFalse (by simp)

/-- Python's `str.lower()` on ASCII text: lower-case every character.
(Defined by structural recursion over the character list so that proofs can
evaluate it; `String.toLower` itself is equal but does not kernel-reduce.) -/
def pyLower (s : String) : String := ⟨s.data.map Char.toLower⟩

/-- Helper for `pySplitComma`: split the remaining characters at commas,
`acc` holding the reversed current field. -/
def splitCommaAux : List Char → List Char → List String
  | [], acc => [⟨acc.reverse⟩]
  | c :: cs, acc =>
    if c = ',' then ⟨acc.reverse⟩ :: splitCommaAux cs []
    else splitCommaAux cs (c :: acc)

/-- Python's `s.split(",")`: the comma-separated fields of `s`, with
`"".split(",") == [""]` and empty fields preserved. -/
def pySplitComma (s : String) : List String := splitCommaAux s.data []

namespace Py7z

/-- `re.fullmatch(r"[0-9]+[bkmgt]", s, re.IGNORECASE) is not None`:
one or more ASCII digits followed by exactly one unit letter among
b, k, m, g, t in either case. -/
def genericSizeMatch (s : String) : Bool :=
  let cs := s.data
  !cs.dropLast.isEmpty && cs.dropLast.all (fun c => c.isDigit)
    && ['b', 'k', 'm', 'g', 't'].contains (cs.getLastD ' ').toLower

/-- `_generic_size` of `py7z.py` (the copy in `argument_types.py` is
textually identical): return the input unchanged when the size regex
matches, otherwise raise `ValueError(f"Invalid {what} {s}")`. -/
def _generic_size (s : String) (what : String := "size") : Except PyError String :=
  if genericSizeMatch s then .ok s
  else .error (.valueError ("Invalid " ++ what ++ " " ++ s))

/-- Spec-side characterization of the generic-size grammar, written from
the spec's words — `<positive-integer><unit>`, one or more digits followed
by a single unit letter among b, k, m, g, t in either case — for
comparison with the code's regex test `genericSizeMatch`. -/
def IsGenericSizeStr (s : String) : Prop :=
  ∃ (ds : List Char) (u : Char), s.data = ds ++ [u] ∧ ds ≠ []
    ∧ (∀ c ∈ ds, c.isDigit) ∧ u.toLower ∈ (['b', 'k', 'm', 'g', 't'] : List Char)

/-- Model of Python's built-in `int()` applied to a string: an optional
sign followed by one or more ASCII digits.  (Python additionally strips
surrounding whitespace and allows single underscores between digits;
no caller in this program can rely on those forms and no claim uses them.)
`none` models the `ValueError: invalid literal for int() ...`. -/
def pyIntOfString (s : String) : Option Int :=
  let digitsVal : List Char → Nat := fun cs =>
    cs.foldl (fun a c => a * 10 + (c.toNat - 48)) 0
  let ofDigits : List Char → Option Nat := fun cs =>
    if !cs.isEmpty && cs.all (fun c => c.isDigit) then some (digitsVal cs) else none
  match s.data with
  | '-' :: rest => (ofDigits rest).map (fun n => -(n : Int))
  | '+' :: rest => (ofDigits rest).map (fun n => (n : Int))
  | rest => (ofDigits rest).map (fun n => (n : Int))

/-- `thread_count` of `py7z.py`: lower-case the input; pass `"off"`/`"on"`
through; otherwise parse with `int()` (propagating its `ValueError` on
non-numeric input) and reject negative values with the dedicated message. -/
def thread_count (s : String) : Except PyError String :=
  let s := pyLower s
  if s = "off" ∨ s = "on" then .ok s
  else
    match pyIntOfString s with
    | none => .error (.valueError ("invalid literal for int() with base 10: '" ++ s ++ "'"))
    | some i =>
      if i < 0 then .error (.valueError "Number of threads must not be negative")
      else .ok s

/-- `TIMESTAMPS_LOOKUP` of `py7z.py` as a lookup function on the dict
`{"access": "a", "creation": "c", "modified": "m"}`; `none` models a key
miss. -/
def TIMESTAMPS_LOOKUP (t : String) : Option String :=
  if t = "access" then some "a"
  else if t = "creation" then some "c"
  else if t = "modified" then some "m"
  else none

/-- The membership check `t not in TIMESTAMPS_LOOKUP` for each token of the
deduplicated set, in list order; raises `ValueError(f"Invalid timestamp {t}")`
at the first unknown token. -/
def checkTimestamps : List String → Except PyError Unit
  | [] => .ok ()
  | t :: ts =>
    if (TIMESTAMPS_LOOKUP t).isSome then checkTimestamps ts
    else .error (.valueError ("Invalid timestamp " ++ t))

/-- `timestamps` of `py7z.py`: `set(s.lower().split(","))`, validate each
element, return the set as a tuple.  The Python `set` (unordered,
duplicate-free) is modelled as the duplicate-free list `List.dedup` of the
split tokens; every property stated about the result is set-level
(membership, nodup), never order-level. -/
def timestamps (s : String) : Except PyError (List String) :=
  let ts := (pySplitComma (pyLower s)).dedup
  match checkTimestamps ts with
  | .error e => .error e
  | .ok _ => .ok ts

/-- `solid_block_size` of `py7z.py`. -/
def solid_block_size (s : String) : Except PyError String :=
  let s := pyLower s
  if s = "none" then .ok "off"
  else if s = "solid" then .ok "on"
  else _generic_size s "solid block size"

/-- `dictionary_size` of `py7z.py`. -/
def dictionary_size (s : String) : Except PyError String :=
  _generic_size s "dictionary size"

/-- `verbosity_level` of `py7z.py`: clamp a count at 3. -/
def verbosity_level (c : Nat) : Nat := min c 3

/-- `_on_off` of `py7z.py`. -/
def _on_off (b : Bool) : String := if b then "on" else "off"

/-- `re.fullmatch(r"(r[0-])?", recurse) is not None`.  The character class
`[0-]` contains exactly the characters `0` and `-` (a trailing `-` in a
class is literal), and the group, when taken, consumes exactly two
characters, so the full matches of `(r[0-])?` are `""`, `"r0"` and `"r-"` —
the single letter `"r"` is NOT matched. -/
def recurseRegexMatch (recurse : String) : Bool :=
  recurse = "" || recurse = "r0" || recurse = "r-"

/-- `_make_inclusion_pattern` of `py7z.py`: `f"!{pattern}" if pattern[0] != "@"
else pattern`.  The subscript `pattern[0]` raises `IndexError` on the empty
string before the comparison happens. -/
def _make_inclusion_pattern (pattern : String) : Except PyError String :=
  match pattern.data with
  | [] => .error .indexError
  | c :: _ => .ok (if c ≠ '@' then "!" ++ pattern else pattern)

/-- `_make_inclusion_arg` of `py7z.py`: assert the flag is `i` or `x`, assert
the recursion option against `(r[0-])?`, then build
`f"-{include_flag}{recurse}{_make_inclusion_pattern(pattern)}"`. -/
def _make_inclusion_arg (pattern : String) (recurse : String)
    (include_flag : String) : Except PyError String :=
  if ¬ (include_flag = "i" ∨ include_flag = "x") then
    .error (.assertionError "include flag must be i or x")
  else if ¬ recurseRegexMatch recurse then
    .error (.assertionError "recursion option does not match regex")
  else
    match _make_inclusion_pattern pattern with
    | .error e => .error e
    | .ok p => .ok ("-" ++ include_flag ++ recurse ++ p)

/-- The `argparse.Namespace` produced by `parse_args` of `py7z.py`, with
each field at the type argparse gives it: `store_true` selectors in a
required mutually-exclusive group are `Bool`; every optional value or
tri-state boolean defaults to `None`, modelled as `Option _` with `none`
for absent; `verbose` is the `action="count"` counter; `files` is the
`nargs="*"` list, which argparse materialises as a (possibly empty) list. -/
structure Args where
  operation_add : Bool
  operation_extract : Bool
  operation_list : Bool
  archive_format : Option String
  compression_method : Option String
  compression_level : Option String
  num_threads : Option String
  store_timestamps : Option (List String)
  compress_header : Option Bool
  encrypt_header : Option Bool
  solid_block_size : Option String
  delete_after_compression : Option Bool
  read_from_stdin : Option Bool
  extract_to_stdout : Option Bool
  verbose : Option Nat
  store_symlinks_as_links : Option Bool
  output_directory : Option String
  recurse : Option Bool
  «include» : Option (List String)
  include_recursive : Option (List String)
  exclude : Option (List String)
  exclude_recursive : Option (List String)
  ignore_archive_name : Option Bool
  enable_wildcards : Option Bool
  fail_on_bad_file : Option Bool
  overwrite_mode : Option String
  show_progress : Option Bool
  assume_yes : Option Bool
  archive : String
  files : List String
  deriving Repr, DecidableEq

/-- `OVERWRITE_MODE_LOOKUP` of `py7z.py` as a lookup function. -/
def OVERWRITE_MODE_LOOKUP (m : String) : Option String :=
  if m = "yes" then some "a"
  else if m = "skip-existing" then some "s"
  else if m = "rename-extracted" then some "u"
  else if m = "rename-existing" then some "t"
  else none

/-- `get_operation` of `py7z.py`. -/
def get_operation (args : Args) : Except PyError String :=
  if args.operation_add then .ok "a"
  else if args.operation_extract then .ok "x"
  else if args.operation_list then .ok "l"
  else .error (.valueError "Unhandled operation")

/-- `real_args.append(tok)` guarded by a condition (the `== True` /
`== False` / `is not None` tests of `build_7z_command`). -/
def appendIf (xs : List String) (cond : Bool) (tok : String) : List String :=
  if cond then xs ++ [tok] else xs

/-- `if opt is not None: real_args.append(f(opt))`. -/
def appendOpt {α : Type} (xs : List String) (o : Option α) (f : α → String) :
    List String :=
  match o with
  | some v => xs ++ [f v]
  | none => xs

/-- The flag chain of `build_7z_command` of `py7z.py` from the operation
token through the overwrite-mode flag (lines 120–174), one append per
source statement in source order.  Factored out of `build_7z_command` so
the trailing progress / assume-yes / positional appends can be reasoned
about separately; the concatenation of the two is the whole source
function. -/
def build_7z_flags (args : Args) : Except PyError (List String) := do
  let op ← get_operation args
  let r : List String := [op]
  let r := appendOpt r args.archive_format (fun v => "-t" ++ v)
  let r := appendOpt r args.compression_method (fun v => "-mm=" ++ v)
  let r := appendOpt r args.compression_level (fun v => "-mx=" ++ v)
  let r := appendOpt r args.num_threads (fun v => "-mmt=" ++ v)
  let r ← match args.store_timestamps with
    | some ts => do
      let toks ← ts.mapM (fun t =>
        match TIMESTAMPS_LOOKUP t with
        | some c => Except.ok ("-mt" ++ c ++ "=on")
        | none => Except.error (PyError.keyError t))
      pure (r ++ toks)
    | none => pure r
  let r := appendOpt r args.compress_header (fun b => "-mhc=" ++ _on_off b)
  let r := appendOpt r args.encrypt_header (fun b => "-mhe=" ++ _on_off b)
  let r := appendOpt r args.solid_block_size (fun v => "-ms=" ++ v)
  let r := appendIf r (args.delete_after_compression == some true) "-sdel"
  let r := appendIf r (args.read_from_stdin == some true) "-si"
  let r := appendIf r (args.extract_to_stdout == some true) "-so"
  let r := appendOpt r args.verbose (fun v => "-bb" ++ toString v)
  let r := appendIf r (args.store_symlinks_as_links == some true) "-snl"
  let r := appendOpt r args.output_directory (fun v => "-o" ++ v)
  let r := appendOpt r args.recurse (fun b => if b then "-r" else "-r-")
  let r ← match args.«include» with
    | some ps => do
      let toks ← ps.mapM (fun p => _make_inclusion_arg p "" "i")
      pure (r ++ toks)
    | none => pure r
  let r ← match args.include_recursive with
    | some ps => do
      let toks ← ps.mapM (fun p => _make_inclusion_arg p "r" "i")
      pure (r ++ toks)
    | none => pure r
  let r ← match args.exclude with
    | some ps => do
      let toks ← ps.mapM (fun p => _make_inclusion_arg p "" "x")
      pure (r ++ toks)
    | none => pure r
  let r ← match args.exclude_recursive with
    | some ps => do
      let toks ← ps.mapM (fun p => _make_inclusion_arg p "r" "x")
      pure (r ++ toks)
    | none => pure r
  let r := appendIf r (args.ignore_archive_name == some true) "-an"
  let r := appendIf r (args.enable_wildcards == some false) "-spd"
  let r := appendIf r (args.fail_on_bad_file == some true) "-sse"
  let r ← match args.overwrite_mode with
    | some m =>
      match OVERWRITE_MODE_LOOKUP m with
      | some c => pure (r ++ ["-ao" ++ c])
      | none => Except.error (PyError.keyError m)
    | none => pure r
  pure r

/-- The tail of `build_7z_command` of `py7z.py` after the overwrite-mode
flag: the progress-disable flag on an explicit `show_progress == False`,
the `-y` flag on an explicit `assume_yes == True`, the archive positional,
and the file positionals. -/
def build_7z_finish (args : Args) (r : List String) : List String :=
  let r := appendIf r (args.show_progress == some false) "-bd"
  let r := appendIf r (args.assume_yes == some true) "-y"
  let r := r ++ [args.archive]
  let r := r ++ args.files
  r

/-- `build_7z_command` of `py7z.py`: the flag chain of `build_7z_flags`
followed by `build_7z_finish` (argparse always materialises `files` as a
list, so the source's `if args.files is not None` guard always takes the
extend branch). -/
def build_7z_command (args : Args) : Except PyError (List String) :=
  match build_7z_flags args with
  | .error e => .error e
  | .ok r => .ok (build_7z_finish args r)

/-- An `Args` with every option absent: the given operation selectors, the
archive and the files, everything else `None` — what `parse_args` yields
when only an operation flag, the archive and the files are on the command
line. -/
def mkArgs (add extract list : Bool) (archive : String) (files : List String) :
    Args :=
  { operation_add := add, operation_extract := extract, operation_list := list
    archive_format := none, compression_method := none
    compression_level := none, num_threads := none, store_timestamps := none
    compress_header := none, encrypt_header := none, solid_block_size := none
    delete_after_compression := none, read_from_stdin := none
    extract_to_stdout := none, verbose := none
    store_symlinks_as_links := none, output_directory := none, recurse := none
    «include» := none, include_recursive := none, exclude := none
    exclude_recursive := none, ignore_archive_name := none
    enable_wildcards := none, fail_on_bad_file := none, overwrite_mode := none
    show_progress := none, assume_yes := none
    archive := archive, files := files }

/-- `mkArgs` specialised to `--extract`. -/
def mkExtractArgs (archive : String) (files : List String) : Args :=
  mkArgs false true false archive files

end Py7z

namespace Py7zHash

/-- The namespace of `py7z_hash.py`'s `parse_args`: algorithm defaults to
`"sha256"`, `verbose` and `show_progress` default to `False`,
`hash_archive_contents` is a `store_true` flag, `files` is `nargs="*"`. -/
structure HashArgs where
  hash_algorithm : String
  verbose : Bool
  show_progress : Bool
  hash_archive_contents : Bool
  files : List String
  deriving Repr, DecidableEq

/-- `build_7z_command` of `py7z_hash.py`.  In archive-contents mode the
operation tokens become `["t", "-slt"]` and the source prints a usage
message and calls `exit(1)` unless exactly one file is given; that
terminating exit is modelled as the `usageExit` error. -/
def build_7z_command (args : HashArgs) : Except PyError (List String) :=
  let startTokens : Except PyError (List String) :=
    if args.hash_archive_contents then
      if args.files.length ≠ 1 then
        .error (.usageExit
          "Exactly 1 file must be specified when hashing archive contents")
      else .ok ["t", "-slt"]
    else .ok ["h"]
  match startTokens with
  | .error e => .error e
  | .ok r =>
    let r := if !args.verbose then r ++ ["-ba"] else r
    let r := if !args.show_progress then r ++ ["-bd", "-bsp0"] else r
    let r := r ++ ["-scrc" ++ args.hash_algorithm]
    let r := if args.files.length = 0 then r ++ ["-si"] else r ++ ["--"] ++ args.files
    .ok r

end Py7zHash

namespace Py7zLs

/-- `_nonempty_str` of `py7z_ls.py`: the validator of the archive
positional; rejects the empty string with a `ValueError`. -/
def _nonempty_str (s : String) : Except PyError String :=
  if s.length = 0 then .error (.valueError "Value must not be empty string")
  else .ok s

/-- `build_7z_command` of `py7z_ls.py` (its `args` has only the `tabulate`
flag and the validated `archive`). -/
def build_7z_command (tabulate : Bool) (archive : String) : List String :=
  let r : List String := ["l", "-bd", "-bso0", "-bsp0"]
  let r := if !tabulate then r ++ ["-ba"] else r
  r ++ ["--"] ++ [archive]

end Py7zLs

/-! ## Theorems -/

/-- Helper: on a non-empty pattern, `_make_inclusion_pattern` returns the
pattern prefixed with `!` unless its first character is `@`. -/
lemma make_inclusion_pattern_cons (p : String) (c : Char) (cs : List Char)
    (h : p.data = c :: cs) :
    Py7z._make_inclusion_pattern p = .ok (if c ≠ '@' then "!" ++ p else p) := by
  unfold Py7z._make_inclusion_pattern
  rw [h]

/-- Helper: when the flag is `i`/`x` and the recursion option matches the
assertion regex, `_make_inclusion_arg` concatenates flag, recursion option
and normalized pattern. -/
lemma make_inclusion_arg_ok (p q recurse flag : String)
    (hflag : flag = "i" ∨ flag = "x") (hrec : Py7z.recurseRegexMatch recurse = true)
    (hp : Py7z._make_inclusion_pattern p = .ok q) :
    Py7z._make_inclusion_arg p recurse flag = .ok ("-" ++ flag ++ recurse ++ q) := by
  unfold Py7z._make_inclusion_arg
  rw [if_neg (not_not.mpr hflag), if_neg (not_not.mpr hrec), hp]

/-- C1: the spec promises that the recursion flag `"r"` used by the
recursive include/exclude options passes the internal assertion and yields
a `-ir<pattern>` / `-xr<pattern>` token.  The code's assertion regex
`(r[0-])?` matches only `""`, `"r0"` and `"r-"`, so `_make_inclusion_arg`
raises `AssertionError` for every recursive pattern — even though
`build_7z_command` in the same file always passes `"r"` for those options
and the CLI help promises `-ir!`/`-xr!` behavior.  The code, not the
claim, is wrong; this theorem evaluates the code at the failing input. -/
theorem recursive_inclusion_assertion_fails :
    Py7z._make_inclusion_arg "foo" "r" "i"
      = .error (.assertionError "recursion option does not match regex")
    ∧ Py7z._make_inclusion_arg "foo" "r" "x"
      = .error (.assertionError "recursion option does not match regex")
    ∧ Py7z.build_7z_command
        { Py7z.mkExtractArgs "a.7z" [] with include_recursive := some ["foo"] }
      = .error (.assertionError "recursion option does not match regex")
    ∧ Py7z.build_7z_command
        { Py7z.mkArgs true false false "a.7z" [] with exclude_recursive := some ["foo"] }
      = .error (.assertionError "recursion option does not match regex")
    ∧ Py7z.recurseRegexMatch "r" = false
    ∧ Py7z.recurseRegexMatch "" = true
    ∧ Py7z.recurseRegexMatch "r0" = true
    ∧ Py7z.recurseRegexMatch "r-" = true := by
  decide

/-- C3: with operation `extract`, archive `"a.7z"`, no files and every
option absent, the builder returns exactly `["x", "a.7z"]`; more generally
an all-absent option model contributes no flag token for any operation —
the vector is the operation token, the archive and the files, nothing
else. -/
theorem extract_default_command :
    Py7z.build_7z_command (Py7z.mkExtractArgs "a.7z" []) = .ok ["x", "a.7z"]
    ∧ (∀ (archive : String) (files : List String),
        Py7z.build_7z_command (Py7z.mkExtractArgs archive files)
          = .ok ("x" :: archive :: files))
    ∧ (∀ (archive : String) (files : List String),
        Py7z.build_7z_command (Py7z.mkArgs true false false archive files)
          = .ok ("a" :: archive :: files))
    ∧ (∀ (archive : String) (files : List String),
        Py7z.build_7z_command (Py7z.mkArgs false false true archive files)
          = .ok ("l" :: archive :: files)) :=
  ⟨rfl, fun _ _ => rfl, fun _ _ => rfl, fun _ _ => rfl⟩

/-- C5: a non-empty include pattern whose first character is not `@`, with
no recursion flag, normalizes to `-i!<pattern>`; a pattern starting with
`@` normalizes to `-i<pattern>` with no `!` inserted. -/
theorem include_pattern_tokens :
    (∀ (p : String) (c : Char) (cs : List Char), p.data = c :: cs → c ≠ '@' →
        Py7z._make_inclusion_arg p "" "i" = .ok ("-i!" ++ p))
    ∧ (∀ (p : String) (cs : List Char), p.data = '@' :: cs →
        Py7z._make_inclusion_arg p "" "i" = .ok ("-i" ++ p))
    ∧ Py7z._make_inclusion_arg "foo" "" "i" = .ok "-i!foo"
    ∧ Py7z._make_inclusion_arg "@list.txt" "" "i" = .ok "-i@list.txt"
    ∧ Py7z.build_7z_command
        { Py7z.mkExtractArgs "a.7z" [] with «include» := some ["foo", "@list.txt"] }
      = .ok ["x", "-i!foo", "-i@list.txt", "a.7z"] := by
  refine ⟨?_, ?_, by decide, by decide, by decide⟩
  · intro p c cs h hc
    have hq := make_inclusion_pattern_cons p c cs h
    rw [if_pos hc] at hq
    exact make_inclusion_arg_ok p ("!" ++ p) "" "i" (Or.inl rfl) rfl hq
  · intro p cs h
    have hq := make_inclusion_pattern_cons p '@' cs h
    rw [if_neg (by simp)] at hq
    exact make_inclusion_arg_ok p p "" "i" (Or.inl rfl) rfl hq

/-- Witness for C5: the general clauses applied at `"foo"` and
`"@list.txt"`. -/
theorem include_pattern_tokens_witness :
    Py7z._make_inclusion_arg "bar" "" "i" = .ok "-i!bar"
    ∧ Py7z._make_inclusion_arg "@l" "" "i" = .ok "-i@l" :=
  ⟨include_pattern_tokens.1 "bar" 'b' ['a', 'r'] rfl (by decide),
   include_pattern_tokens.2.1 "@l" ['l'] rfl⟩

/-- C10: the inclusion-pattern normalizer is total only on non-empty
patterns — it prefixes `!` unless the first character is `@`, and on the
empty pattern the subscript `pattern[0]` raises an uncaught `IndexError`,
so an empty include pattern aborts the builder with an `IndexError`
rather than a named validation error. -/
theorem inclusion_pattern_empty_aborts :
    (∀ (p : String) (c : Char) (cs : List Char), p.data = c :: cs →
        Py7z._make_inclusion_pattern p = .ok (if c ≠ '@' then "!" ++ p else p))
    ∧ Py7z._make_inclusion_pattern "" = .error .indexError
    ∧ Py7z.build_7z_command { Py7z.mkExtractArgs "a.7z" [] with «include» := some [""] }
        = .error .indexError
    ∧ Py7z.build_7z_command { Py7z.mkExtractArgs "a.7z" [] with exclude := some [""] }
        = .error .indexError :=
  ⟨make_inclusion_pattern_cons, by decide, by decide, by decide⟩

/-- Witness for C10: the non-empty clause applied at `"foo"` and `"@f"`. -/
theorem inclusion_pattern_empty_aborts_witness :
    Py7z._make_inclusion_pattern "foo" = .ok "!foo"
    ∧ Py7z._make_inclusion_pattern "@f" = .ok "@f" :=
  ⟨inclusion_pattern_empty_aborts.1 "foo" 'f' ['o', 'o'] rfl,
   inclusion_pattern_empty_aborts.1 "@f" '@' ['f'] rfl⟩

/-- C2: in archive-contents mode the hash tool fails with the usage error
whenever the file list does not have exactly one element — no argument
vector is produced — and with exactly one file the built vector begins
with the per-entry listing tokens `"t"`, `"-slt"`. -/
theorem hash_contents_requires_one_file :
    ∀ (alg : String) (verbose progress : Bool) (files : List String),
      (files.length ≠ 1 →
        Py7zHash.build_7z_command ⟨alg, verbose, progress, true, files⟩
          = .error (.usageExit
              "Exactly 1 file must be specified when hashing archive contents"))
      ∧ (files.length = 1 →
        ∃ rest, Py7zHash.build_7z_command ⟨alg, verbose, progress, true, files⟩
          = .ok ("t" :: "-slt" :: rest)) := by
  intro alg verbose progress files
  constructor
  · intro h
    simp [Py7zHash.build_7z_command, h]
  · intro h
    rcases List.length_eq_one.mp h with ⟨f, rfl⟩
    cases verbose <;> cases progress <;>
      exact ⟨_, rfl⟩

/-- Witness for C2: two files hit the usage error; one file yields a
vector headed by `"t"`, `"-slt"`. -/
theorem hash_contents_requires_one_file_witness :
    Py7zHash.build_7z_command ⟨"sha256", false, false, true, ["a", "b"]⟩
      = .error (.usageExit
          "Exactly 1 file must be specified when hashing archive contents")
    ∧ ∃ rest, Py7zHash.build_7z_command ⟨"sha256", false, false, true, ["a.7z"]⟩
      = .ok ("t" :: "-slt" :: rest) :=
  ⟨(hash_contents_requires_one_file "sha256" false false ["a", "b"]).1 (by decide),
   (hash_contents_requires_one_file "sha256" false false ["a.7z"]).2 rfl⟩


/-- Helper: the flag chain before the progress flag never reads
`show_progress`, so overriding that field leaves it unchanged. -/
lemma build_flags_show_progress (args : Py7z.Args) (x : Option Bool) :
    Py7z.build_7z_flags { args with show_progress := x } = Py7z.build_7z_flags args := by
  cases args
  rfl

/-- Helper: `appendIf` as a plain append. -/
lemma appendIf_eq_append (xs : List String) (c : Bool) (t : String) :
    Py7z.appendIf xs c t = xs ++ (if c then [t] else []) := by
  cases c <;> simp [Py7z.appendIf]

/-- Helper: when the flag chain succeeds, the builder output is
`build_7z_finish` of its result. -/
lemma build_command_of_flags (args : Py7z.Args) (p : List String)
    (hpre : Py7z.build_7z_flags args = .ok p) :
    Py7z.build_7z_command args = .ok (Py7z.build_7z_finish args p) := by
  unfold Py7z.build_7z_command
  rw [hpre]

/-- Helper: the builder tail as one append chain. -/
lemma build_finish_decomp (args : Py7z.Args) (r : List String) :
    Py7z.build_7z_finish args r
      = r ++ (if args.show_progress == some false then ["-bd"] else [])
          ++ ((if args.assume_yes == some true then ["-y"] else [])
          ++ ([args.archive] ++ args.files)) := by
  unfold Py7z.build_7z_finish
  simp only [appendIf_eq_append, List.append_assoc]

lemma update_show_progress_assume_yes (args : Py7z.Args) (x : Option Bool) :
    ({ args with show_progress := x } : Py7z.Args).assume_yes = args.assume_yes := by
  cases args; rfl

lemma update_show_progress_archive (args : Py7z.Args) (x : Option Bool) :
    ({ args with show_progress := x } : Py7z.Args).archive = args.archive := by
  cases args; rfl

lemma update_show_progress_files (args : Py7z.Args) (x : Option Bool) :
    ({ args with show_progress := x } : Py7z.Args).files = args.files := by
  cases args; rfl

lemma update_show_progress_self (args : Py7z.Args) (x : Option Bool) :
    ({ args with show_progress := x } : Py7z.Args).show_progress = x := by
  cases args; rfl

/-- C4: on the same option model, an explicit `show_progress = False`
yields a vector containing the disable token `-bd`, while an absent
`show_progress` emits no progress token (its vector has exactly one fewer
`-bd` occurrence); in particular the two vectors differ — absent is never
coerced to false. -/
theorem progress_false_vs_absent (args : Py7z.Args) (v v' : List String)
    (hf : Py7z.build_7z_command { args with show_progress := some false } = .ok v)
    (hn : Py7z.build_7z_command { args with show_progress := none } = .ok v') :
    "-bd" ∈ v ∧ v.count "-bd" = v'.count "-bd" + 1 ∧ v ≠ v' := by
  cases hpre : Py7z.build_7z_flags args with
  | error e =>
    rw [Py7z.build_7z_command,
      build_flags_show_progress args (some false), hpre] at hf
    cases hf
  | ok p =>
    rw [build_command_of_flags _ p
        ((build_flags_show_progress args (some false)).trans hpre)] at hf
    rw [build_command_of_flags _ p
        ((build_flags_show_progress args none).trans hpre)] at hn
    injection hf with hv
    injection hn with hv'
    rw [build_finish_decomp, update_show_progress_assume_yes,
      update_show_progress_archive, update_show_progress_files,
      update_show_progress_self] at hv hv'
    rw [show ((some false : Option Bool) == some false) = true from rfl,
      if_pos rfl] at hv
    rw [show ((none : Option Bool) == some false) = false from rfl] at hv'
    simp only [Bool.false_eq_true, if_false, List.append_nil] at hv'
    subst hv hv'
    refine ⟨by simp, ?_, ?_⟩
    · simp only [List.count_append]
      have h1 : (["-bd"] : List String).count "-bd" = 1 := rfl
      rw [h1]
      omega
    · intro h
      have hlen := congrArg List.length h
      simp only [List.length_append, List.length_cons, List.length_nil] at hlen
      omega

/-- Witness for C4: the theorem applied to the bare extract model. -/
theorem progress_false_vs_absent_witness :
    "-bd" ∈ ["x", "-bd", "a.7z"]
    ∧ (["x", "-bd", "a.7z"] : List String).count "-bd"
        = (["x", "a.7z"] : List String).count "-bd" + 1
    ∧ (["x", "-bd", "a.7z"] : List String) ≠ ["x", "a.7z"] :=
  progress_false_vs_absent (Py7z.mkExtractArgs "a.7z" []) _ _ (by decide) (by decide)

/-- Helper: the code's regex test agrees with the spec-side grammar
`IsGenericSizeStr`. -/
lemma genericSizeMatch_iff (s : String) :
    Py7z.genericSizeMatch s = true ↔ Py7z.IsGenericSizeStr s := by
  unfold Py7z.genericSizeMatch Py7z.IsGenericSizeStr
  constructor
  · intro h
    simp only [Bool.and_eq_true, Bool.not_eq_true', List.all_eq_true] at h
    obtain ⟨⟨hne, hdig⟩, hunit⟩ := h
    have hcs : s.data ≠ [] := by
      intro hnil
      rw [hnil] at hne
      exact absurd hne (by decide)
    have hne' : s.data.dropLast ≠ [] := by simpa using hne
    refine ⟨s.data.dropLast, s.data.getLast hcs, (List.dropLast_append_getLast hcs).symm,
      hne', fun c hc => hdig c hc, ?_⟩
    have hlast : s.data.getLastD ' ' = s.data.getLast hcs := by
      rw [List.getLastD_eq_getLast?, List.getLast?_eq_getLast_of_ne_nil hcs]
      rfl
    rw [hlast] at hunit
    simpa using hunit
  · rintro ⟨ds, u, hsplit, hne, hdig, hunit⟩
    rw [hsplit]
    simp only [Bool.and_eq_true, Bool.not_eq_true', List.all_eq_true]
    refine ⟨⟨?_, ?_⟩, ?_⟩
    · rw [List.dropLast_concat]
      simpa using hne
    · rw [List.dropLast_concat]
      exact hdig
    · rw [List.getLastD_concat]
      simpa using hunit

/-- C6: the generic size validator returns its input unchanged exactly on
strings of one or more digits followed by one unit letter in
{b,k,m,g,t} of either case, and rejects every other string with a
`ValueError` naming the validated option and the literal input. -/
theorem generic_size_accepts_exactly_grammar (s what : String) :
    (Py7z.IsGenericSizeStr s → Py7z._generic_size s what = .ok s)
    ∧ (¬ Py7z.IsGenericSizeStr s →
        Py7z._generic_size s what
          = .error (.valueError ("Invalid " ++ what ++ " " ++ s))) := by
  constructor
  · intro h
    unfold Py7z._generic_size
    rw [if_pos ((genericSizeMatch_iff s).mpr h)]
  · intro h
    unfold Py7z._generic_size
    rw [if_neg (fun hb => h ((genericSizeMatch_iff s).mp hb))]

/-- Witness for C6: `"10k"` (valid) and `"10"` (missing unit), `"k"`
(unit only), `"10x"` (unsupported unit) through the validator for the
dictionary-size option. -/
theorem generic_size_accepts_exactly_grammar_witness :
    Py7z._generic_size "10k" "dictionary size" = .ok "10k"
    ∧ Py7z._generic_size "5T" "dictionary size" = .ok "5T"
    ∧ Py7z._generic_size "10" "dictionary size"
        = .error (.valueError "Invalid dictionary size 10")
    ∧ Py7z._generic_size "k" "dictionary size"
        = .error (.valueError "Invalid dictionary size k")
    ∧ Py7z._generic_size "10x" "dictionary size"
        = .error (.valueError "Invalid dictionary size 10x") :=
  ⟨(generic_size_accepts_exactly_grammar "10k" "dictionary size").1
      ⟨['1', '0'], 'k', by decide, by decide, by decide, by decide⟩,
   (generic_size_accepts_exactly_grammar "5T" "dictionary size").1
      ⟨['5'], 'T', by decide, by decide, by decide, by decide⟩,
   (generic_size_accepts_exactly_grammar "10" "dictionary size").2
      (fun h => absurd ((genericSizeMatch_iff "10").mpr h) (by decide)),
   (generic_size_accepts_exactly_grammar "k" "dictionary size").2
      (fun h => absurd ((genericSizeMatch_iff "k").mpr h) (by decide)),
   (generic_size_accepts_exactly_grammar "10x" "dictionary size").2
      (fun h => absurd ((genericSizeMatch_iff "10x").mpr h) (by decide))⟩

/-- Counterexample to C7 as stated: an input that does not parse as an
integer at all fails with Python's integer-literal `ValueError`, not with
the negative-thread-count error the claim promises for every non-parsing
input. -/
theorem thread_count_nonnumeric_counterexample :
    Py7z.thread_count "x"
      = .error (.valueError "invalid literal for int() with base 10: 'x'")
    ∧ Py7z.thread_count "x"
      ≠ .error (.valueError "Number of threads must not be negative") := by
  decide

/-- C7 (amended): `"off"`/`"on"` in any case are accepted (lower-cased);
other inputs that parse as a non-negative integer are accepted; inputs
that parse as a negative integer (such as `"-1"`) fail with the
negative-thread-count error; inputs that do not parse as an integer fail
with the integer-literal `ValueError` instead; `"0"`, `"ON"` and `"off"`
all succeed. -/
theorem thread_count_classification :
    (∀ s : String, (pyLower s = "off" ∨ pyLower s = "on") →
        Py7z.thread_count s = .ok (pyLower s))
    ∧ (∀ (s : String) (i : Int), ¬(pyLower s = "off" ∨ pyLower s = "on") →
        Py7z.pyIntOfString (pyLower s) = some i → 0 ≤ i →
        Py7z.thread_count s = .ok (pyLower s))
    ∧ (∀ (s : String) (i : Int), ¬(pyLower s = "off" ∨ pyLower s = "on") →
        Py7z.pyIntOfString (pyLower s) = some i → i < 0 →
        Py7z.thread_count s
          = .error (.valueError "Number of threads must not be negative"))
    ∧ (∀ s : String, ¬(pyLower s = "off" ∨ pyLower s = "on") →
        Py7z.pyIntOfString (pyLower s) = none →
        Py7z.thread_count s
          = .error (.valueError
              ("invalid literal for int() with base 10: '" ++ pyLower s ++ "'")))
    ∧ Py7z.thread_count "0" = .ok "0"
    ∧ Py7z.thread_count "ON" = .ok "on"
    ∧ Py7z.thread_count "off" = .ok "off"
    ∧ Py7z.thread_count "-1"
        = .error (.valueError "Number of threads must not be negative") := by
  refine ⟨?_, ?_, ?_, ?_, by decide, by decide, by decide, by decide⟩
  · intro s h
    simp [Py7z.thread_count, h]
  · intro s i h hp hge
    simp [Py7z.thread_count, h, hp, not_lt.mpr hge]
  · intro s i h hp hlt
    simp [Py7z.thread_count, h, hp, hlt]
  · intro s h hp
    simp [Py7z.thread_count, h, hp]

/-- Witness for C7 (amended): each clause applied at a concrete input. -/
theorem thread_count_classification_witness :
    Py7z.thread_count "OFF" = .ok "off"
    ∧ Py7z.thread_count "7" = .ok "7"
    ∧ Py7z.thread_count "-2"
        = .error (.valueError "Number of threads must not be negative")
    ∧ Py7z.thread_count "abc"
        = .error (.valueError "invalid literal for int() with base 10: 'abc'") :=
  ⟨thread_count_classification.1 "OFF" (by decide),
   thread_count_classification.2.1 "7" 7 (by decide) (by decide) (by decide),
   thread_count_classification.2.2.1 "-2" (-2) (by decide) (by decide) (by decide),
   thread_count_classification.2.2.2.1 "abc" (by decide) (by decide)⟩

/-- Helper: if some token of the list is unknown, the timestamp check
fails naming an unknown token. -/
lemma checkTimestamps_error_of_invalid (L : List String)
    (h : ∃ t ∈ L, Py7z.TIMESTAMPS_LOOKUP t = none) :
    ∃ u, Py7z.TIMESTAMPS_LOOKUP u = none
      ∧ Py7z.checkTimestamps L = .error (.valueError ("Invalid timestamp " ++ u)) := by
  induction L with
  | nil =>
    obtain ⟨t, ht, _⟩ := h
    cases ht
  | cons t ts ih =>
    obtain ⟨u, hu, hnone⟩ := h
    by_cases hv : (Py7z.TIMESTAMPS_LOOKUP t).isSome
    · have hu' : u ∈ ts := by
        rcases List.mem_cons.mp hu with rfl | h2
        · rw [hnone] at hv
          cases hv
        · exact h2
      obtain ⟨w, hw1, hw2⟩ := ih ⟨u, hu', hnone⟩
      exact ⟨w, hw1, by simp [Py7z.checkTimestamps, hv, hw2]⟩
    · refine ⟨t, ?_, by simp [Py7z.checkTimestamps, hv]⟩
      cases hl : Py7z.TIMESTAMPS_LOOKUP t with
      | none => rfl
      | some v =>
        rw [hl] at hv
        exact absurd rfl hv

/-- Helper: a successful `timestamps` returns exactly the deduplicated
split tokens. -/
lemma timestamps_ok_eq (s : String) (l : List String)
    (h : Py7z.timestamps s = .ok l) :
    l = (pySplitComma (pyLower s)).dedup := by
  simp only [Py7z.timestamps] at h
  cases hc : Py7z.checkTimestamps ((pySplitComma (pyLower s)).dedup) with
  | error e =>
    rw [hc] at h
    cases h
  | ok u =>
    rw [hc] at h
    injection h with h
    exact h.symm

/-- C8: `timestamps "access,modified"` yields a collection whose element
set is {access, modified}; matching is case-insensitive; duplicates
collapse (every successful result is duplicate-free and membership agrees
with the comma-split of the lower-cased input); and an input containing a
token outside {access, creation, modified} fails with a `ValueError`
naming an offending token — `"access,bogus"` names `"bogus"`. -/
theorem timestamps_set_semantics :
    (∃ l, Py7z.timestamps "access,modified" = .ok l
       ∧ l.toFinset = ({"access", "modified"} : Finset String))
    ∧ Py7z.timestamps "ACCESS" = .ok ["access"]
    ∧ Py7z.timestamps "access,access" = .ok ["access"]
    ∧ (∀ (s : String) (l : List String), Py7z.timestamps s = .ok l →
        l.Nodup ∧ ∀ x, x ∈ l ↔ x ∈ pySplitComma (pyLower s))
    ∧ Py7z.timestamps "access,bogus"
        = .error (.valueError "Invalid timestamp bogus")
    ∧ (∀ (s t : String), t ∈ pySplitComma (pyLower s) →
        Py7z.TIMESTAMPS_LOOKUP t = none →
        ∃ u, Py7z.TIMESTAMPS_LOOKUP u = none
          ∧ Py7z.timestamps s = .error (.valueError ("Invalid timestamp " ++ u))) := by
  refine ⟨⟨["access", "modified"], by decide, by decide⟩, by decide, by decide,
    ?_, by decide, ?_⟩
  · intro s l h
    rw [timestamps_ok_eq s l h]
    exact ⟨List.nodup_dedup _, fun x => List.mem_dedup⟩
  · intro s t ht hnone
    obtain ⟨u, hu1, hu2⟩ :=
      checkTimestamps_error_of_invalid ((pySplitComma (pyLower s)).dedup)
        ⟨t, List.mem_dedup.mpr ht, hnone⟩
    exact ⟨u, hu1, by simp [Py7z.timestamps, hu2]⟩

/-- Witness for C8: the duplicate-collapse clause at `"access,modified"`
and the unknown-token clause at `"creation,bogus"`. -/
theorem timestamps_set_semantics_witness :
    (List.Nodup ["access", "modified"]
      ∧ ∀ x : String, x ∈ (["access", "modified"] : List String)
          ↔ x ∈ pySplitComma (pyLower "access,modified"))
    ∧ ∃ u, Py7z.TIMESTAMPS_LOOKUP u = none
        ∧ Py7z.timestamps "creation,bogus"
            = .error (.valueError ("Invalid timestamp " ++ u)) :=
  ⟨timestamps_set_semantics.2.2.2.1 "access,modified" ["access", "modified"] (by decide),
   timestamps_set_semantics.2.2.2.2.2 "creation,bogus" "bogus" (by decide) (by decide)⟩

/-- Counterexample to C9 as stated: the general wrapper's archive
positional is a plain `str` with no emptiness check, so an empty-string
archive path is not rejected — the builder succeeds and hands off a
vector whose archive token is the empty string. -/
theorem empty_archive_vector_built :
    Py7z.build_7z_command (Py7z.mkExtractArgs "" []) = .ok ["x", ""] := by
  decide

/-- C9 (amended): the archive positional is required in the tools that
take one, and the list tool's validator rejects the empty string with a
validation error and passes every non-empty string through; the general
wrapper, however, performs no emptiness check — whatever archive string
argparse delivers appears verbatim in the built vector. -/
theorem archive_validation_per_tool :
    Py7zLs._nonempty_str ""
        = .error (.valueError "Value must not be empty string")
    ∧ (∀ s : String, s ≠ "" → Py7zLs._nonempty_str s = .ok s)
    ∧ (∀ (archive : String) (files : List String),
        ∃ v, Py7z.build_7z_command (Py7z.mkExtractArgs archive files) = .ok v
          ∧ archive ∈ v) := by
  refine ⟨by decide, ?_, ?_⟩
  · intro s h
    have hlen : s.length ≠ 0 := by
      intro h0
      apply h
      cases s with
      | mk data =>
        simp only [String.length] at h0
        simp [List.length_eq_zero.mp h0]
    unfold Py7zLs._nonempty_str
    rw [if_neg hlen]
  · intro a f
    exact ⟨"x" :: a :: f, rfl, by simp⟩

/-- Witness for C9 (amended): the non-empty clause at `"a.7z"` and the
pass-through clause at a concrete archive and file list. -/
theorem archive_validation_per_tool_witness :
    Py7zLs._nonempty_str "a.7z" = .ok "a.7z"
    ∧ ∃ v, Py7z.build_7z_command (Py7z.mkExtractArgs "b.7z" ["f"]) = .ok v
        ∧ "b.7z" ∈ v :=
  ⟨archive_validation_per_tool.2.1 "a.7z" (by decide),
   archive_validation_per_tool.2.2 "b.7z" ["f"]⟩
